import Mathlib

/-!
A verification development for a browser application that generates
diagrams from text prompts, tabular datasets and PDF documents.  The
definitions below are shallow embeddings of the program's handlers:
React state updates become explicit state passing, the hosted
collaborators (auth, completion service, record store, object storage,
text extraction, renderer) become `Except` valued oracles passed as
arguments, and JS strings become Lean `String`/`List Char`.
JS numbers are modelled exactly: the chart pipeline uses `Option ℚ`
(with `none` playing the role of `NaN`), the zoom state uses `ℚ`.
-/

namespace AIDiagram

/-! ## String helpers (JS built-ins used by the handlers) -/

/-- JS `String.prototype.trim` on a character list: drop whitespace from
both ends. -/
def trimChars (l : List Char) : List Char :=
  ((l.dropWhile Char.isWhitespace).reverse.dropWhile Char.isWhitespace).reverse

/-- JS `s.trim()`. -/
def trimS (s : String) : String :=
  ⟨trimChars s.data⟩

/-- JS `s.slice(0, n)` for `0 ≤ n`: the first `n` characters. -/
def takeS (n : Nat) (s : String) : String :=
  ⟨s.data.take n⟩

/-- JS `s.toLowerCase()` (ASCII range, which is all the code compares). -/
def toLowerS (s : String) : String :=
  ⟨s.data.map Char.toLower⟩

/-- JS `s.endsWith(post)`. -/
def endsWithS (post s : String) : Bool :=
  post.data.isSuffixOf s.data

/-- JS `hay.includes(needle)` on character lists: substring containment. -/
def containsSub (hay needle : List Char) : Bool :=
  match hay with
  | [] => needle.isEmpty
  | _ :: rest => needle.isPrefixOf hay || containsSub rest needle

/-- JS `hay.includes(needle)` on strings. -/
def containsSubS (hay needle : String) : Bool :=
  containsSub hay.data needle.data

/-! ## Code-fence sanitization

`TextPromptGenerator.handleGenerate` cleans the completion output with
`.replace(/```mermaid\n?/g, '').replace(/```\n?/g, '').trim()`.
A JS global `replace` with an empty replacement deletes the leftmost
non-overlapping matches scanning left to right, which is exactly the
structural recursion below (the `\n?` is greedy, hence the longer
pattern is tried first). -/

/-- First `replace` pass: delete every occurrence of ```` ```mermaid ````
followed by an optional newline. -/
def stripMermaid : List Char → List Char
  | '`' :: '`' :: '`' :: 'm' :: 'e' :: 'r' :: 'm' :: 'a' :: 'i' :: 'd' :: '\n' :: rest =>
      stripMermaid rest
  | '`' :: '`' :: '`' :: 'm' :: 'e' :: 'r' :: 'm' :: 'a' :: 'i' :: 'd' :: rest =>
      stripMermaid rest
  | c :: rest => c :: stripMermaid rest
  | [] => []

/-- Second `replace` pass: delete every occurrence of three backticks
followed by an optional newline. -/
def stripTicks : List Char → List Char
  | '`' :: '`' :: '`' :: '\n' :: rest => stripTicks rest
  | '`' :: '`' :: '`' :: rest => stripTicks rest
  | c :: rest => c :: stripTicks rest
  | [] => []

/-- The full sanitization chain of the prompt flow:
strip ```` ```mermaid ```` markers, strip remaining ```` ``` ```` markers,
trim surrounding whitespace. -/
def sanitizeChars (l : List Char) : List Char :=
  trimChars (stripTicks (stripMermaid l))

/-- Sanitization on strings. -/
def sanitizeStr (s : String) : String :=
  ⟨sanitizeChars s.data⟩

/-- Does the list start with a backtick? -/
def startsTick (l : List Char) : Bool :=
  match l with
  | c :: _ => c == '`'
  | [] => false

/-- Does the list start with two backticks? -/
def startsTicks2 (l : List Char) : Bool :=
  match l with
  | c :: rest => c == '`' && startsTick rest
  | [] => false

/-- Does the list contain three consecutive backticks (a code-fence
marker) anywhere? -/
def hasTriple (l : List Char) : Bool :=
  match l with
  | c :: rest => (c == '`' && startsTicks2 rest) || hasTriple rest
  | [] => false

/-- Does the string contain a code-fence marker ```` ``` ````? -/
def hasTripleS (s : String) : Bool :=
  hasTriple s.data


/-! ## JS numbers and `parseFloat`

The chart pipeline computes `parseFloat(row[col]) || 0` and filters with
`!isNaN(...)`.  A JS number that can be `NaN` is modelled as `Option ℚ`
with `none` for `NaN`; the values that actually arise are decimal and
exact in `ℚ`. -/

/-- A JS number: `none` models `NaN`. -/
abbrev JSNum := Option ℚ

/-- JS `isNaN`. -/
def isNaNJS (n : JSNum) : Bool :=
  n.isNone

/-- JS `n || 0`: `NaN` and `0` are falsy and give `0`; every other number
is returned unchanged. -/
def jsOrZero (n : JSNum) : JSNum :=
  match n with
  | none => some 0
  | some q => if q = 0 then some 0 else some q

/-- Numeric value of a list of decimal digit characters. -/
def digitsVal (ds : List Char) : ℕ :=
  ds.foldl (fun acc c => 10 * acc + (c.toNat - 48)) 0

/-- Core of `parseFloat` after sign handling: an integer part, an
optional decimal point and fraction part.  Exponents and `Infinity`,
which the application never feeds to `parseFloat`, are not modelled;
any input without a leading decimal number yields `none` (JS `NaN`). -/
def parseFloatCore (l : List Char) : Option ℚ :=
  let ip := l.takeWhile Char.isDigit
  let rest := l.dropWhile Char.isDigit
  match rest with
  | '.' :: rest2 =>
    let fp := rest2.takeWhile Char.isDigit
    if ip.isEmpty && fp.isEmpty then none
    else some ((digitsVal ip : ℚ) + (digitsVal fp : ℚ) / (10 ^ fp.length))
  | _ => if ip.isEmpty then none else some (digitsVal ip)

/-- JS `parseFloat`: skip leading whitespace, optional sign, then the
longest decimal-number prefix; `NaN` (`none`) when no digits are found. -/
def parseFloat (s : String) : Option ℚ :=
  match s.data.dropWhile Char.isWhitespace with
  | '-' :: rest => (parseFloatCore rest).map (fun q => -q)
  | '+' :: rest => parseFloatCore rest
  | l => parseFloatCore l

/-! ## Data model: the Diagram Record and the state of each view -/

/-- One reduced `{x, y, label}` tuple of the dataset pipeline
(`handleGenerateChart`). -/
structure ChartPoint where
  x : String
  y : JSNum
  label : String
  deriving DecidableEq

/-- The persisted Diagram Record (table `diagrams`).  Optional fields are
only set by the dataset and PDF flows. -/
structure DiagramRecord where
  id : String
  userId : String
  title : String
  type' : String
  prompt : String
  diagramCode : String
  sourceFile : Option String := none
  sourceData : Option (List ChartPoint) := none
  extractedText : Option String := none
  createdAt : String
  deriving DecidableEq

/-- The external collaborator calls a handler can issue, in issue order. -/
inductive ExtCall where
  | auth
  | ai
  | dbCreate
  | dbDelete
  | upload
  | extract
  deriving DecidableEq

/-! ## Prompt flow: `TextPromptGenerator.handleGenerate`

The fallback diagrams below are the literal template strings of the
component (`{`/`}` written as `\x7b`/`\x7d`). -/

/-- Fallback flowchart skeleton, built from the first 30 prompt characters. -/
def fallbackFlowchart (prompt : String) : String :=
  "flowchart TD\n    A[\"" ++ takeS 30 prompt ++
  "\"] --> B\x7bAnalysis\x7d\n    B -->|Step 1| C[Process]\n    B -->|Step 2| D[Alternative]\n    C --> E[Result]\n    D --> E\n    E --> F[End]"

/-- Fallback mind-map skeleton, rooted at the first 20 prompt characters. -/
def fallbackMindmap (prompt : String) : String :=
  "mindmap\n  root((\"" ++ takeS 20 prompt ++
  "\"))\n    Key Concept 1\n      Detail A\n      Detail B\n    Key Concept 2\n      Detail C\n      Detail D\n    Key Concept 3\n      Detail E\n      Detail F"

/-- Fallback sequence-diagram skeleton (fixed text). -/
def fallbackSequence : String :=
  "sequenceDiagram\n    participant User\n    participant System\n    User->>System: Request\n    System-->>User: Processing\n    System->>System: Internal Process\n    System-->>User: Response"

/-- Fallback class-diagram skeleton (fixed text). -/
def fallbackClassDiagram : String :=
  "classDiagram\n    class MainConcept \x7b\n        +property1 : string\n        +property2 : number\n        +method1() : void\n    \x7d\n    class RelatedConcept \x7b\n        +relatedProp : string\n        +relatedMethod() : string\n    \x7d\n    MainConcept --> RelatedConcept"

/-- Fallback Gantt skeleton titled with the first 30 prompt characters. -/
def fallbackGantt (prompt : String) : String :=
  "gantt\n    title " ++ takeS 30 prompt ++
  "\n    dateFormat  YYYY-MM-DD\n    section Phase 1\n    Planning           :a1, 2024-01-01, 30d\n    Research           :after a1, 20d\n    section Phase 2\n    Development        :2024-02-01, 25d\n    Testing            :20d"

/-- Generic fallback for kinds without a specific skeleton. -/
def fallbackGeneric (prompt : String) : String :=
  "flowchart TD\n    A[\"" ++ prompt ++ "\"] --> B[Generated Diagram]\n    B --> C[Success]"

/-- `fallbackDiagrams[diagramType] || generic`: the kind-keyed fallback
lookup of `handleGenerate`. -/
def fallbackDiagram (diagramType prompt : String) : String :=
  if diagramType = "flowchart" then fallbackFlowchart prompt
  else if diagramType = "mindmap" then fallbackMindmap prompt
  else if diagramType = "sequence" then fallbackSequence
  else if diagramType = "class" then fallbackClassDiagram
  else if diagramType = "gantt" then fallbackGantt prompt
  else fallbackGeneric prompt

/-- Result of one `handleGenerate` run, from the user's point of view:
an inline validation message, a success toast with the generated record
set in state, or the destructive "Generation failed" toast. -/
inductive GenOutcome where
  | validationError (title : String)
  | success (record : DiagramRecord)
  | failure (title : String)
  deriving DecidableEq

/-- `TextPromptGenerator.handleGenerate`.  `auth`, `ai` and `db` are the
oracle results of `blink.auth.me()`, `blink.ai.generateText` and
`blink.db.diagrams.create`; `now` and `nowIso` the two clock reads
(`Date.now()` and `new Date().toISOString()`).  The second component
lists the collaborator calls actually issued. -/
def handleGenerate (prompt diagramType : String)
    (auth : Except String String) (ai : Except String String)
    (db : Except String Unit) (now nowIso : String) :
    GenOutcome × List ExtCall :=
  if trimS prompt = "" then (.validationError "Please enter a prompt", [])
  else if diagramType = "" then (.validationError "Please select a diagram type", [])
  else
    match auth with
    | .error _ => (.failure "Generation failed", [.auth])
    | .ok userId =>
      let diagramCode :=
        match ai with
        | .ok text => trimS text
        | .error _ => fallbackDiagram diagramType prompt
      let diagramCode := sanitizeStr diagramCode
      let diagramData : DiagramRecord :=
        { id := "diagram_" ++ now
          userId := userId
          title := takeS 100 prompt
          type' := diagramType
          prompt := prompt
          diagramCode := diagramCode
          createdAt := nowIso }
      match db with
      | .error _ => (.failure "Generation failed", [.auth, .ai, .dbCreate])
      | .ok _ => (.success diagramData, [.auth, .ai, .dbCreate])

/-! ## Dataset flow: `DatasetUploader.handleGenerateChart` -/

/-- A parsed CSV row: column name to cell text.  JS `row[col]` on a
missing key yields a value `parseFloat` maps to `NaN`, like the empty
string here. -/
def lookupRow (row : List (String × String)) (col : String) : String :=
  ((row.find? (fun p => p.1 == col)).map (fun p => p.2)).getD ""

/-- The column selection state `{x, y, label}` of the dataset view. -/
structure SelectedColumns where
  x : String
  y : String
  label : String
  deriving DecidableEq

/-- The reduction step of `handleGenerateChart`:
`parsedData.map(row => ({x: row[x], y: parseFloat(row[y]) || 0, label: …}))
           .filter(item => !isNaN(item.y))`. -/
def reduceChartData (parsedData : List (List (String × String)))
    (cols : SelectedColumns) : List ChartPoint :=
  (parsedData.map (fun row =>
    { x := lookupRow row cols.x
      y := jsOrZero (parseFloat (lookupRow row cols.y))
      label := if cols.label ≠ "" then lookupRow row cols.label
               else lookupRow row cols.x : ChartPoint })).filter
    (fun item => !(isNaNJS item.y))

/-- Result of one `handleGenerateChart` run. -/
inductive ChartOutcome where
  | missingInfo
  | success (record : DiagramRecord)
  | failure (title : String)
  deriving DecidableEq

/-- `DatasetUploader.handleGenerateChart`.  Note that the completion
call is NOT wrapped in an inner try/catch: an `ai` error falls through
to the outer catch ("Chart generation failed") and no record is
created; the description is persisted without sanitization. -/
def handleGenerateChart (parsedData : List (List (String × String)))
    (chartType : String) (selectedColumns : SelectedColumns)
    (fileName : String) (auth : Except String String)
    (ai : Except String String) (db : Except String Unit)
    (now nowIso : String) : ChartOutcome × List ExtCall :=
  if parsedData.isEmpty || chartType = "" || selectedColumns.x = ""
      || selectedColumns.y = "" then
    (.missingInfo, [])
  else
    match auth with
    | .error _ => (.failure "Chart generation failed", [.auth])
    | .ok userId =>
      let chartData := reduceChartData parsedData selectedColumns
      match ai with
      | .error _ => (.failure "Chart generation failed", [.auth, .ai])
      | .ok chartCode =>
        let chartDiagram : DiagramRecord :=
          { id := "chart_" ++ now
            userId := userId
            title := chartType ++ " chart from " ++ fileName
            type' := chartType
            prompt := "Chart generated from dataset: " ++ fileName
            diagramCode := chartCode
            sourceData := some chartData
            createdAt := nowIso }
        match db with
        | .error _ => (.failure "Chart generation failed", [.auth, .ai, .dbCreate])
        | .ok _ => (.success chartDiagram, [.auth, .ai, .dbCreate])

/-! ## Document flow: `PDFProcessor` -/

/-- A selected file: name and size in bytes. -/
structure JSFile where
  name : String
  size : ℕ
  deriving DecidableEq

/-- The component state touched by `handleFileUpload`. -/
structure PDFState where
  file : Option JSFile
  extractedText : String
  generatedMindMap : Option DiagramRecord
  progress : ℕ
  deriving DecidableEq

/-- `PDFProcessor.handleFileUpload`: validates extension (case-insensitive
`.pdf`) and size (10 MB) before touching any state; a rejected file
leaves the previous selection and results untouched and issues no
collaborator call.  Returns (new state, toast title if rejected, calls). -/
def handleFileUpload (uploadedFile : Option JSFile) (st : PDFState) :
    PDFState × Option String × List ExtCall :=
  match uploadedFile with
  | none => (st, none, [])
  | some f =>
    if ¬ (endsWithS ".pdf" (toLowerS f.name) = true) then
      (st, some "Invalid file type", [])
    else if f.size > 10 * 1024 * 1024 then
      (st, some "File too large", [])
    else
      ({ file := some f, extractedText := "", generatedMindMap := none,
         progress := 0 }, none, [])

/-- Result of one `handleProcessPDF` run. -/
inductive PDFOutcome where
  | noFile
  | success (record : DiagramRecord)
  | failure (title : String)
  deriving DecidableEq

/-- `PDFProcessor.handleProcessPDF`: upload, extract, check the minimum
extracted length (100 characters after trim, checked BEFORE the
completion call), generate, persist.  The completion output is persisted
untrimmed and unsanitized; a thrown error's message is surfaced in the
failure toast. -/
def handleProcessPDF (file : Option JSFile)
    (auth : Except String String) (upload : Except String String)
    (extractRes : Except String String) (ai : Except String String)
    (db : Except String Unit) (now nowIso : String) :
    PDFOutcome × List ExtCall :=
  match file with
  | none => (.noFile, [])
  | some f =>
    match auth with
    | .error e => (.failure e, [.auth])
    | .ok userId =>
      match upload with
      | .error e => (.failure e, [.auth, .upload])
      | .ok publicUrl =>
        match extractRes with
        | .error e => (.failure e, [.auth, .upload, .extract])
        | .ok extractedContent =>
          if (trimS extractedContent).length < 100 then
            (.failure "Could not extract sufficient text from PDF",
             [.auth, .upload, .extract])
          else
            match ai with
            | .error e => (.failure e, [.auth, .upload, .extract, .ai])
            | .ok mindMapCode =>
              let mindMapData : DiagramRecord :=
                { id := "mindmap_" ++ now
                  userId := userId
                  title := "Mind map from " ++ f.name
                  type' := "mindmap"
                  prompt := "Mind map generated from PDF: " ++ f.name
                  diagramCode := mindMapCode
                  sourceFile := some publicUrl
                  extractedText := some (takeS 2000 extractedContent)
                  createdAt := nowIso }
              match db with
              | .error e => (.failure e, [.auth, .upload, .extract, .ai, .dbCreate])
              | .ok _ => (.success mindMapData,
                          [.auth, .upload, .extract, .ai, .dbCreate])

/-! ## History view: `DiagramHistory` -/

/-- The in-memory state of the history view: the loaded record set and
the current preview selection. -/
structure HistoryState where
  diagrams : List DiagramRecord
  selectedDiagram : Option DiagramRecord
  deriving DecidableEq

/-- The search-term predicate of `filterDiagrams`: case-insensitive
substring match against title or origin prompt. -/
def matchesTerm (searchTerm : String) (d : DiagramRecord) : Bool :=
  containsSubS (toLowerS d.title) (toLowerS searchTerm)
    || containsSubS (toLowerS d.prompt) (toLowerS searchTerm)

/-- `DiagramHistory.filterDiagrams`: apply the term filter (only when the
term is non-empty), then the kind filter (only when the selector is not
the `"all"` wildcard).  Pure: computed from the full loaded set, which it
never modifies. -/
def filterDiagrams (diagrams : List DiagramRecord)
    (searchTerm filterType : String) : List DiagramRecord :=
  let filtered := diagrams
  let filtered :=
    if searchTerm ≠ "" then filtered.filter (matchesTerm searchTerm)
    else filtered
  if filterType ≠ "all" then filtered.filter (fun d => d.type' == filterType)
  else filtered

/-- The same filter with the two stages swapped, following the spec's
words "filtering by kind K then term T"; compared against
`filterDiagrams` for the order-independence property. -/
def filterDiagramsKindFirst (diagrams : List DiagramRecord)
    (searchTerm filterType : String) : List DiagramRecord :=
  let filtered := diagrams
  let filtered :=
    if filterType ≠ "all" then filtered.filter (fun d => d.type' == filterType)
    else filtered
  if searchTerm ≠ "" then filtered.filter (matchesTerm searchTerm)
  else filtered

/-- `DiagramHistory.handleDeleteDiagram`: nothing happens without the
confirmation step or when the store delete fails; on success the record
is removed from the loaded set and the selection is cleared exactly when
it pointed at the deleted id. -/
def handleDeleteDiagram (confirmed : Bool) (dbDelete : Except String Unit)
    (diagramId : String) (st : HistoryState) : HistoryState × List ExtCall :=
  if ¬ confirmed then (st, [])
  else
    match dbDelete with
    | .error _ => (st, [.dbDelete])
    | .ok _ =>
      ({ diagrams := st.diagrams.filter (fun d => d.id != diagramId)
         selectedDiagram :=
           if st.selectedDiagram.map (fun d => d.id) = some diagramId then none
           else st.selectedDiagram }, [.dbDelete])

/-! ## Rendering adapter: `DiagramViewer` -/

/-- The fixed built-in fallback description rendered when the primary
render call fails. -/
def fallbackRenderCode : String :=
  "flowchart TD\n    A[Diagram Rendering Failed] --> B[Raw Code Below]\n    B --> C[Please Check Syntax]"

/-- Terminal states of one render attempt. -/
inductive RenderOutcome where
  | rendered (svg : String)
  | fallbackRendered (fallbackSvg : String) (originalCode : String)
  | errorDisplayed (originalCode : String)
  deriving DecidableEq

/-- `DiagramViewer.renderDiagram`: try the primary render; on failure try
the fixed fallback description alongside the original code; if even that
fails, display the raw code.  `primary` and `fallback` are the oracle
results of the two `mermaid.render` calls. -/
def renderDiagram (diagramCode : String)
    (primary : Except String String) (fallback : Except String String) :
    RenderOutcome :=
  match primary with
  | .ok svg => .rendered svg
  | .error _ =>
    match fallback with
    | .ok fallbackSvg => .fallbackRendered fallbackSvg diagramCode
    | .error _ => .errorDisplayed diagramCode

/-- `DiagramViewer.handleZoomIn`: step up by 0.2, clamped at 3. -/
def handleZoomIn (zoom : ℚ) : ℚ :=
  min (zoom + 0.2) 3

/-- `DiagramViewer.handleZoomOut`: step down by 0.2, clamped at 0.5. -/
def handleZoomOut (zoom : ℚ) : ℚ :=
  max (zoom - 0.2) 0.5

/-- `DiagramViewer.handleResetZoom`: back to 1. -/
def handleResetZoom (_zoom : ℚ) : ℚ :=
  1

/-- The three zoom controls of the viewer toolbar. -/
inductive ZoomOp where
  | zoomIn
  | zoomOut
  | reset
  deriving DecidableEq

/-- Apply one zoom control to the current zoom factor. -/
def applyZoom (op : ZoomOp) (zoom : ℚ) : ℚ :=
  match op with
  | .zoomIn => handleZoomIn zoom
  | .zoomOut => handleZoomOut zoom
  | .reset => handleResetZoom zoom

/-- Run a sequence of zoom controls from the initial factor 1. -/
def runZoom (ops : List ZoomOp) : ℚ :=
  ops.foldl (fun z op => applyZoom op z) 1

/-! ## Lemmas about sanitization -/

/-! ### The sanitized output carries no code-fence marker -/

theorem startsTick_cons (c : Char) (l : List Char) :
    startsTick (c :: l) = (c == '`') := rfl

theorem startsTicks2_cons (c : Char) (l : List Char) :
    startsTicks2 (c :: l) = ((c == '`') && startsTick l) := rfl

theorem hasTriple_cons (c : Char) (l : List Char) :
    hasTriple (c :: l) = (((c == '`') && startsTicks2 l) || hasTriple l) := rfl

/-- The fall-through step of the ```` ``` ```` pass: when the head does not
open a fence, it is emitted unchanged. -/
theorem stripTicks_cons_step (c : Char) (rest : List Char)
    (h : ¬ (c = '`' ∧ startsTicks2 rest = true)) :
    stripTicks (c :: rest) = c :: stripTicks rest := by
  rw [stripTicks.eq_def]
  split
  · rename_i rest1 heq
    injection heq with hc htl
    exact absurd ⟨hc, by rw [htl]; rfl⟩ h
  · rename_i rest1 heq
    injection heq with hc htl
    exact absurd ⟨hc, by rw [htl]; rfl⟩ h
  · rename_i c1 rest1 heq
    injection heq with hc htl
    rw [hc, htl]
  · rename_i heq
    exact absurd heq (by simp)

theorem stripTicks_not_startsTick {l : List Char} (h : startsTick l = false) :
    startsTick (stripTicks l) = false := by
  match l with
  | [] => simpa [stripTicks] using h
  | c :: rest =>
    have hc : (c == '`') = false := by simpa [startsTick_cons] using h
    rw [stripTicks_cons_step c rest (by simp at hc; tauto)]
    simpa [startsTick_cons] using hc

theorem stripTicks_not_startsTicks2 {l : List Char} (h : startsTicks2 l = false) :
    startsTicks2 (stripTicks l) = false := by
  match l with
  | [] => simpa [stripTicks] using h
  | c :: rest =>
    by_cases hc : c = '`'
    · subst hc
      have hrest : startsTick rest = false := by
        simpa [startsTicks2_cons] using h
      rw [stripTicks_cons_step '`' rest (by
        intro ⟨_, h2⟩
        rw [show startsTicks2 rest = ((startsTick rest) && startsTicks2 rest) from by
          cases rest with
          | nil => rfl
          | cons d tl => simp [startsTicks2_cons, startsTick_cons, Bool.and_assoc]] at h2
        rw [hrest] at h2
        simp at h2)]
      rw [startsTicks2_cons]
      simp [stripTicks_not_startsTick hrest]
    · rw [stripTicks_cons_step c rest (by tauto)]
      simp [startsTicks2_cons, hc]

/-- Core lemma: after the ```` ``` ```` stripping pass the result never
contains three consecutive backticks.  (A removal can never glue two
partial runs into a fence: an emitted character is either not a backtick
or not followed by two backticks, and that shape survives the pass.) -/
theorem stripTicks_no_triple (l : List Char) : hasTriple (stripTicks l) = false := by
  induction l using stripTicks.induct with
  | case1 rest ih => simpa [stripTicks] using ih
  | case2 rest _ ih => simpa [stripTicks] using ih
  | case3 c rest h1 h2 ih =>
    have hshape : ¬ (c = '`' ∧ startsTicks2 rest = true) := by
      intro ⟨hc, hs⟩
      subst hc
      match rest, hs with
      | d :: rest2, hs =>
        have hd : d = '`' := by
          by_contra hd
          simp [startsTicks2_cons, hd] at hs
        subst hd
        match rest2, hs with
        | e :: rest3, hs =>
          have he : e = '`' := by
            by_contra he
            simp [startsTicks2_cons, startsTick_cons, he] at hs
          subst he
          match rest3 with
          | '\n' :: rest4 => exact h1 rest4 rfl rfl
          | [] => exact h2 [] rfl rfl
          | f :: rest4 => exact h2 (f :: rest4) rfl rfl
    rw [stripTicks_cons_step c rest hshape, hasTriple_cons]
    simp only [Bool.or_eq_false_iff, Bool.and_eq_false_iff]
    refine ⟨?_, ih⟩
    by_cases hc : c = '`'
    · subst hc
      right
      have : startsTicks2 rest = false := by
        by_contra hs
        exact hshape ⟨rfl, by simpa using hs⟩
      simp [stripTicks_not_startsTicks2 this]
    · left; simp [hc]
  | case4 => simp [stripTicks, hasTriple]

theorem startsTick_iff (l : List Char) : startsTick l = true ↔ ['`'] <+: l := by
  cases l with
  | nil => simp [startsTick]
  | cons c rest =>
    rw [startsTick_cons, List.cons_prefix_cons]
    simp only [List.nil_prefix, and_true, beq_iff_eq]
    exact ⟨fun h => h.symm, fun h => h.symm⟩

theorem startsTicks2_iff (l : List Char) : startsTicks2 l = true ↔ ['`', '`'] <+: l := by
  cases l with
  | nil => simp [startsTicks2]
  | cons c rest =>
    rw [startsTicks2_cons, List.cons_prefix_cons]
    simp only [Bool.and_eq_true, beq_iff_eq, startsTick_iff]
    exact ⟨fun ⟨h1, h2⟩ => ⟨h1.symm, h2⟩, fun ⟨h1, h2⟩ => ⟨h1.symm, h2⟩⟩

theorem hasTriple_iff_infixOf (l : List Char) :
    hasTriple l = true ↔ ['`', '`', '`'] <:+: l := by
  induction l with
  | nil => simp [hasTriple]
  | cons c rest ih =>
    rw [hasTriple_cons, List.infix_cons_iff, List.cons_prefix_cons]
    simp only [Bool.or_eq_true, Bool.and_eq_true, beq_iff_eq, ih, startsTicks2_iff]
    constructor
    · rintro (⟨h1, h2⟩ | h)
      · exact Or.inl ⟨h1.symm, h2⟩
      · exact Or.inr h
    · rintro (⟨h1, h2⟩ | h)
      · exact Or.inl ⟨h1.symm, h2⟩
      · exact Or.inr h

/-- Trimming yields an infix of the original list. -/
theorem trimChars_infixOf (l : List Char) : trimChars l <:+: l := by
  unfold trimChars
  have h1 : l.dropWhile Char.isWhitespace <:+ l := List.dropWhile_suffix _
  have h2 : ((l.dropWhile Char.isWhitespace).reverse.dropWhile Char.isWhitespace).reverse
      <+: (l.dropWhile Char.isWhitespace).reverse.reverse :=
    List.reverse_prefix.mpr (List.dropWhile_suffix _)
  rw [List.reverse_reverse] at h2
  exact h2.isInfix.trans h1.isInfix

/-- A fence-free list stays fence-free after trimming. -/
theorem hasTriple_trimChars {l : List Char} (h : hasTriple l = false) :
    hasTriple (trimChars l) = false := by
  by_contra hcontra
  have : hasTriple (trimChars l) = true := by
    cases htc : hasTriple (trimChars l) with
    | false => exact absurd htc hcontra
    | true => rfl
  have := (hasTriple_iff_infixOf _).mp this
  have := (hasTriple_iff_infixOf l).mpr (this.trans (trimChars_infixOf l))
  rw [h] at this
  simp at this

/-- The full sanitization chain never leaves a code-fence marker behind. -/
theorem sanitizeChars_no_triple (l : List Char) :
    hasTriple (sanitizeChars l) = false :=
  hasTriple_trimChars (stripTicks_no_triple (stripMermaid l))

/-- String form of `sanitizeChars_no_triple`. -/
theorem sanitizeStr_no_triple (s : String) :
    hasTripleS (sanitizeStr s) = false :=
  sanitizeChars_no_triple s.data

/-! ### Sanitization keeps a leading ordinary character, hence a
non-empty result -/

set_option maxHeartbeats 1600000 in
theorem stripMermaid_cons_ne (c : Char) (l : List Char) (h : c ≠ '`') :
    stripMermaid (c :: l) = c :: stripMermaid l := by
  rw [stripMermaid.eq_def]
  split
  · rename_i rest1 heq
    injection heq with hc _
    exact absurd hc h
  · rename_i rest1 heq
    injection heq with hc _
    exact absurd hc h
  · rename_i c1 rest1 heq
    injection heq with hc htl
    rw [hc, htl]
  · rename_i heq
    exact absurd heq (by simp)

theorem stripTicks_cons_ne (c : Char) (l : List Char) (h : c ≠ '`') :
    stripTicks (c :: l) = c :: stripTicks l :=
  stripTicks_cons_step c l (fun hcontra => h hcontra.1)

/-- An empty trim result means the whole list was whitespace. -/
theorem trimChars_eq_nil {m : List Char} (h : trimChars m = []) :
    ∀ a ∈ m, a.isWhitespace = true := by
  intro a ha
  unfold trimChars at h
  have h1 : (m.dropWhile Char.isWhitespace).reverse.dropWhile Char.isWhitespace = [] := by
    have := congrArg List.reverse h
    simpa using this
  rw [List.dropWhile_eq_nil_iff] at h1
  by_cases hmem : a ∈ m.dropWhile Char.isWhitespace
  · exact h1 a (by simpa using hmem)
  · have hsplit : a ∈ m.takeWhile Char.isWhitespace ++ m.dropWhile Char.isWhitespace := by
      rw [List.takeWhile_append_dropWhile]
      exact ha
    rcases List.mem_append.mp hsplit with h2 | h2
    · exact List.mem_takeWhile_imp h2
    · exact absurd h2 hmem

theorem trimChars_cons_ne_nil (c : Char) (l : List Char)
    (h : c.isWhitespace = false) : trimChars (c :: l) ≠ [] := by
  intro hcontra
  have := trimChars_eq_nil hcontra c (by simp)
  rw [h] at this
  simp at this

/-- Sanitizing a list whose head is an ordinary character (not a backtick,
not whitespace) yields a non-empty result. -/
theorem sanitizeChars_cons_ne_nil (c : Char) (l : List Char)
    (hc : c ≠ '`') (hw : c.isWhitespace = false) :
    sanitizeChars (c :: l) ≠ [] := by
  unfold sanitizeChars
  rw [stripMermaid_cons_ne c l hc, stripTicks_cons_ne c _ hc]
  exact trimChars_cons_ne_nil c _ hw

/-- String form: a string starting with an ordinary character sanitizes
to a non-empty string. -/
theorem sanitizeStr_ne_empty {s : String} {c : Char} {l : List Char}
    (hdata : s.data = c :: l) (hc : c ≠ '`') (hw : c.isWhitespace = false) :
    sanitizeStr s ≠ "" := by
  intro hcontra
  have hdat : sanitizeChars s.data = ([] : List Char) := congrArg String.data hcontra
  rw [hdata] at hdat
  exact sanitizeChars_cons_ne_nil c l hc hw hdat

/-- Appending strings concatenates their character data. -/
theorem data_append (a b : String) : (a ++ b).data = a.data ++ b.data := by
  cases a; cases b; rfl

/-! ## Helper lemmas for the claim theorems -/

theorem applyZoom_bounds (op : ZoomOp) (z : ℚ) (h1 : 0.5 ≤ z) (h2 : z ≤ 3) :
    0.5 ≤ applyZoom op z ∧ applyZoom op z ≤ 3 := by
  cases op with
  | zoomIn =>
    constructor
    · exact le_min (by linarith) (by norm_num)
    · exact min_le_right _ _
  | zoomOut =>
    constructor
    · exact le_max_right _ _
    · exact max_le (by linarith) (by norm_num)
  | reset =>
    constructor <;> norm_num [applyZoom, handleResetZoom]

theorem runZoom_aux (ops : List ZoomOp) :
    ∀ z : ℚ, 0.5 ≤ z → z ≤ 3 →
      0.5 ≤ ops.foldl (fun z op => applyZoom op z) z ∧
      ops.foldl (fun z op => applyZoom op z) z ≤ 3 := by
  induction ops with
  | nil => intro z h1 h2; exact ⟨h1, h2⟩
  | cons op rest ih =>
    intro z h1 h2
    have h := applyZoom_bounds op z h1 h2
    exact ih _ h.1 h.2

/-! ## The claims -/

/-- C5: after any finite sequence of zoom-in (+0.2, clamped at 3),
zoom-out (−0.2, clamped at 0.5) and reset operations starting from 1.0,
the zoom factor stays in the inclusive range [0.5, 3.0], and reset
always returns exactly 1. -/
theorem c5_zoom_always_clamped :
    (∀ ops : List ZoomOp, 0.5 ≤ runZoom ops ∧ runZoom ops ≤ 3) ∧
    (∀ z : ℚ, applyZoom ZoomOp.reset z = 1) := by
  constructor
  · intro ops
    exact runZoom_aux ops 1 (by norm_num) (by norm_num)
  · intro z; rfl

/-- C6: the history filter is order-independent: applying the term
filter and then the kind filter (`filterDiagrams`, as the code does it)
yields the same list as applying the kind filter first
(`filterDiagramsKindFirst`, the spec's other order).  Both are pure
functions of the full loaded set. -/
theorem c6_filter_order_independent :
    ∀ (diagrams : List DiagramRecord) (searchTerm filterType : String),
      filterDiagrams diagrams searchTerm filterType =
        filterDiagramsKindFirst diagrams searchTerm filterType := by
  intro d t k
  unfold filterDiagrams filterDiagramsKindFirst
  by_cases ht : t ≠ "" <;> by_cases hk : k ≠ "all" <;> simp [ht, hk]
  exact List.filter_congr (fun x _ => Bool.and_comm _ _)

/-- C7: a confirmed, store-successful delete removes exactly the records
carrying the deleted identifier from the loaded set; the selection is
cleared precisely when it pointed at that identifier and is untouched
otherwise. -/
theorem c7_delete_removes_and_clears_selection :
    ∀ (st : HistoryState) (diagramId : String),
      (∀ r, r ∈ ((handleDeleteDiagram true (.ok ()) diagramId st).1).diagrams ↔
        r ∈ st.diagrams ∧ r.id ≠ diagramId) ∧
      (∀ r, st.selectedDiagram = some r →
        (r.id = diagramId →
          ((handleDeleteDiagram true (.ok ()) diagramId st).1).selectedDiagram = none) ∧
        (r.id ≠ diagramId →
          ((handleDeleteDiagram true (.ok ()) diagramId st).1).selectedDiagram = some r)) ∧
      (st.selectedDiagram = none →
        ((handleDeleteDiagram true (.ok ()) diagramId st).1).selectedDiagram = none) := by
  intro st diagramId
  refine ⟨?_, ?_, ?_⟩
  · intro r
    simp [handleDeleteDiagram, List.mem_filter, bne_iff_ne]
  · intro r hr
    constructor
    · intro he
      simp [handleDeleteDiagram, hr, he]
    · intro hne
      simp [handleDeleteDiagram, hr, hne]
  · intro h
    simp [handleDeleteDiagram, h]

/-- Records and state used to witness C7. -/
def recA : DiagramRecord :=
  { id := "a", userId := "u", title := "A", type' := "flowchart",
    prompt := "pa", diagramCode := "flowchart TD", createdAt := "t1" }

def recB : DiagramRecord :=
  { id := "b", userId := "u", title := "B", type' := "mindmap",
    prompt := "pb", diagramCode := "mindmap", createdAt := "t2" }

def hist0 : HistoryState :=
  { diagrams := [recA, recB], selectedDiagram := some recA }

/-- Witness for C7: deleting the non-selected record `"b"` removes it
from the loaded set and leaves the selection on `recA`. -/
theorem c7_delete_witness :
    recB ∉ ((handleDeleteDiagram true (.ok ()) "b" hist0).1).diagrams ∧
    ((handleDeleteDiagram true (.ok ()) "b" hist0).1).selectedDiagram = some recA := by
  have h := c7_delete_removes_and_clears_selection hist0 "b"
  constructor
  · intro hmem
    exact absurd ((h.1 recB).mp hmem).2 (by decide)
  · exact (h.2.1 recA rfl).2 (by decide)

/-- C4: a render attempt always terminates in one of the three terminal
states (rendered, fallback-rendered with the original code exposed, or
error-displayed), and when both the primary and the fallback render
fail the error display is reached unconditionally. -/
theorem c4_render_never_escapes :
    ∀ (diagramCode : String) (primary fallback : Except String String),
      ((∃ svg, renderDiagram diagramCode primary fallback = .rendered svg) ∨
       (∃ svg, renderDiagram diagramCode primary fallback =
         .fallbackRendered svg diagramCode) ∨
       renderDiagram diagramCode primary fallback = .errorDisplayed diagramCode) ∧
      (∀ e e', primary = .error e → fallback = .error e' →
        renderDiagram diagramCode primary fallback = .errorDisplayed diagramCode) := by
  intro code p f
  constructor
  · cases p with
    | ok svg => exact Or.inl ⟨svg, rfl⟩
    | error e =>
      cases f with
      | ok s => exact Or.inr (Or.inl ⟨s, rfl⟩)
      | error e2 => exact Or.inr (Or.inr rfl)
  · intro e e' hp hf
    subst hp; subst hf
    rfl

/-- Witness for C4: a malformed description with both render calls
failing ends in the error display. -/
theorem c4_render_witness :
    renderDiagram "not a diagram" (.error "syntax") (.error "syntax again") =
      .errorDisplayed "not a diagram" :=
  (c4_render_never_escapes "not a diagram" (.error "syntax")
    (.error "syntax again")).2 "syntax" "syntax again" rfl rfl

/-- C3: evaluating the dataset reduction at the spec's own example
`[{x:"Jan",y:"10"},{x:"Feb",y:"bad"}]` with column `y` selected.  The
code's `parseFloat(...) || 0` maps the unparseable `"bad"` to `0` before
the `!isNaN` filter runs, so the second row is KEPT as `{x:"Feb",y:0}`
instead of being dropped as the spec states. -/
theorem c3_reduction_keeps_nonnumeric_rows :
    reduceChartData [[("x", "Jan"), ("y", "10")], [("x", "Feb"), ("y", "bad")]]
        { x := "x", y := "y", label := "" } =
      [{ x := "Jan", y := some 10, label := "Jan" },
       { x := "Feb", y := some 0, label := "Feb" }] := by
  decide

/-- C8: an empty/whitespace-only prompt or an absent diagram kind makes
the prompt flow return a validation error with no collaborator call at
all — in particular no record is created or persisted. -/
theorem c8_validation_before_any_call :
    ∀ (prompt diagramType : String) (auth ai : Except String String)
      (db : Except String Unit) (now nowIso : String),
      trimS prompt = "" ∨ diagramType = "" →
      (∃ title, (handleGenerate prompt diagramType auth ai db now nowIso).1 =
        .validationError title) ∧
      (handleGenerate prompt diagramType auth ai db now nowIso).2 = [] := by
  intro p k auth ai db now nowIso h
  rcases h with h | h
  · unfold handleGenerate
    simp [h]
  · by_cases hp : trimS p = ""
    · unfold handleGenerate
      simp [hp]
    · unfold handleGenerate
      simp [hp, h]

/-- Witness for C8: a whitespace-only prompt is refused before any call. -/
theorem c8_validation_witness :
    (∃ title, (handleGenerate "   " "flowchart" (.ok "u") (.ok "code") (.ok ())
      "1" "t").1 = .validationError title) ∧
    (handleGenerate "   " "flowchart" (.ok "u") (.ok "code") (.ok ()) "1" "t").2 = [] :=
  c8_validation_before_any_call "   " "flowchart" (.ok "u") (.ok "code") (.ok ())
    "1" "t" (Or.inl (by decide))

/-- C9: in the document flow an extracted text whose trimmed length is
below 100 characters is rejected with the "Could not extract sufficient
text from PDF" error after upload and extraction but BEFORE the
completion call, and no record is created; a trimmed length of 100 or
more proceeds to the completion call. -/
theorem c9_minimum_extracted_length :
    (∀ (f : JSFile) (userId publicUrl text : String) (ai : Except String String)
       (db : Except String Unit) (now nowIso : String),
       (trimS text).length < 100 →
       handleProcessPDF (some f) (.ok userId) (.ok publicUrl) (.ok text)
           ai db now nowIso =
         (.failure "Could not extract sufficient text from PDF",
          [.auth, .upload, .extract])) ∧
    (∀ (f : JSFile) (userId publicUrl text : String) (ai : Except String String)
       (db : Except String Unit) (now nowIso : String),
       100 ≤ (trimS text).length →
       ExtCall.ai ∈ (handleProcessPDF (some f) (.ok userId) (.ok publicUrl)
         (.ok text) ai db now nowIso).2) := by
  constructor
  · intro f userId publicUrl text ai db now nowIso h
    unfold handleProcessPDF
    simp [h]
  · intro f userId publicUrl text ai db now nowIso h
    have hlt : ¬ ((trimS text).length < 100) := by omega
    unfold handleProcessPDF
    cases ai <;> cases db <;> simp [hlt]

/-- Short and long extracted texts for the C9 witness. -/
def shortExtract : String :=
  "Only fifty characters of text could be extracted.."

def longExtract : String :=
  "This extracted document text is long enough to pass the minimum length check imposed by the pipeline."

/-- Witness for C9: 50 extracted characters are rejected before the
completion call; 101 characters proceed to it. -/
theorem c9_minimum_length_witness :
    handleProcessPDF (some { name := "paper.pdf", size := 1000 }) (.ok "u")
        (.ok "url") (.ok shortExtract) (.ok "mindmap") (.ok ()) "1" "t" =
      (.failure "Could not extract sufficient text from PDF",
       [.auth, .upload, .extract]) ∧
    ExtCall.ai ∈ (handleProcessPDF (some { name := "paper.pdf", size := 1000 })
      (.ok "u") (.ok "url") (.ok longExtract) (.ok "mindmap") (.ok ()) "1" "t").2 :=
  ⟨c9_minimum_extracted_length.1 { name := "paper.pdf", size := 1000 } "u" "url"
      shortExtract (.ok "mindmap") (.ok ()) "1" "t" (by decide),
   c9_minimum_extracted_length.2 { name := "paper.pdf", size := 1000 } "u" "url"
      longExtract (.ok "mindmap") (.ok ()) "1" "t" (by decide)⟩

/-- C10: a selected file whose lower-cased name does not end in ".pdf"
or whose size exceeds 10485760 bytes is rejected with a notification,
the component state (previous file, extracted text, generated result)
is left unchanged, and no collaborator call is issued. -/
theorem c10_file_validation :
    ∀ (f : JSFile) (st : PDFState),
      endsWithS ".pdf" (toLowerS f.name) = false ∨ f.size > 10485760 →
      (handleFileUpload (some f) st).1 = st ∧
      (handleFileUpload (some f) st).2.1.isSome = true ∧
      (handleFileUpload (some f) st).2.2 = [] := by
  intro f st h
  by_cases hext : endsWithS ".pdf" (toLowerS f.name) = true
  · have hsize : f.size > 10 * 1024 * 1024 := by
      rcases h with h | h
      · rw [hext] at h; simp at h
      · omega
    unfold handleFileUpload
    simp [hext, hsize]
  · unfold handleFileUpload
    simp [hext]

/-- State used to witness C10. -/
def pdfSt0 : PDFState :=
  { file := some { name := "earlier.pdf", size := 77 },
    extractedText := "previous text", generatedMindMap := none, progress := 0 }

/-- Witness for C10: a `.txt` file is rejected and the previous
selection survives. -/
theorem c10_file_validation_witness :
    (handleFileUpload (some { name := "notes.txt", size := 5 }) pdfSt0).1 = pdfSt0 ∧
    (handleFileUpload (some { name := "notes.txt", size := 5 }) pdfSt0).2.1.isSome = true ∧
    (handleFileUpload (some { name := "notes.txt", size := 5 }) pdfSt0).2.2 = [] :=
  c10_file_validation { name := "notes.txt", size := 5 } pdfSt0 (Or.inl (by decide))

/-- A string of the shape `a ++ b` whose left part starts with an
ordinary character sanitizes to a non-empty string. -/
theorem sanitizeStr_append_ne_empty (a b : String) (c : Char) (m : List Char)
    (ha : a.data = c :: m) (hc : c ≠ '`') (hw : c.isWhitespace = false) :
    sanitizeStr (a ++ b) ≠ "" := by
  apply sanitizeStr_ne_empty (c := c) (l := m ++ b.data) _ hc hw
  rw [data_append, ha]
  rfl

/-- Every fallback skeleton survives sanitization as a non-empty
description, whatever the requested kind and prompt. -/
theorem sanitizeStr_fallbackDiagram_ne_empty (diagramType prompt : String) :
    sanitizeStr (fallbackDiagram diagramType prompt) ≠ "" := by
  unfold fallbackDiagram
  split_ifs
  · unfold fallbackFlowchart
    rw [String.append_assoc]
    exact sanitizeStr_append_ne_empty _ _ 'f' ("lowchart TD\n    A[\"").data rfl
      (by decide) (by decide)
  · unfold fallbackMindmap
    rw [String.append_assoc]
    exact sanitizeStr_append_ne_empty _ _ 'm' ("indmap\n  root((\"").data rfl
      (by decide) (by decide)
  · decide
  · decide
  · unfold fallbackGantt
    rw [String.append_assoc]
    exact sanitizeStr_append_ne_empty _ _ 'g' ("antt\n    title ").data rfl
      (by decide) (by decide)
  · unfold fallbackGeneric
    rw [String.append_assoc]
    exact sanitizeStr_append_ne_empty _ _ 'f' ("lowchart TD\n    A[\"").data rfl
      (by decide) (by decide)

/-- C1 counterexample: in the DATASET flow a failing completion call
does NOT produce a fallback Diagram Record — the run ends in the
"Chart generation failed" notification with no store call, refuting the
claim that every origin synthesizes a fallback record. -/
theorem c1_counterexample_dataset_error_aborts :
    handleGenerateChart [[("x", "Jan"), ("y", "10")], [("x", "Feb"), ("y", "bad")]]
        "bar" { x := "x", y := "y", label := "" } "data.csv" (.ok "user1")
        (.error "ServiceError") (.ok ()) "1700000000000"
        "2024-01-01T00:00:00.000Z" =
      (.failure "Chart generation failed", [.auth, .ai]) := by
  decide

/-- C1 (amended): only the PROMPT flow absorbs a completion-service
error by deterministically synthesizing the kind-specific fallback
skeleton (generic flowchart for kinds without one) and still persisting
a record; the dataset and document flows abort with a failure
notification, never reaching the record store. -/
theorem c1_fallback_only_in_prompt_flow :
    (∀ (prompt diagramType userId err now nowIso : String),
       trimS prompt ≠ "" → diagramType ≠ "" →
       handleGenerate prompt diagramType (.ok userId) (.error err) (.ok ())
           now nowIso =
         (.success
           { id := "diagram_" ++ now, userId := userId,
             title := takeS 100 prompt, type' := diagramType, prompt := prompt,
             diagramCode := sanitizeStr (fallbackDiagram diagramType prompt),
             createdAt := nowIso },
          [.auth, .ai, .dbCreate])) ∧
    (∀ (parsedData : List (List (String × String))) (chartType : String)
       (selectedColumns : SelectedColumns) (fileName userId err : String)
       (db : Except String Unit) (now nowIso : String),
       parsedData ≠ [] → chartType ≠ "" → selectedColumns.x ≠ "" →
       selectedColumns.y ≠ "" →
       handleGenerateChart parsedData chartType selectedColumns fileName
           (.ok userId) (.error err) db now nowIso =
         (.failure "Chart generation failed", [.auth, .ai])) ∧
    (∀ (f : JSFile) (userId publicUrl text err : String)
       (db : Except String Unit) (now nowIso : String),
       100 ≤ (trimS text).length →
       handleProcessPDF (some f) (.ok userId) (.ok publicUrl) (.ok text)
           (.error err) db now nowIso =
         (.failure err, [.auth, .upload, .extract, .ai])) := by
  refine ⟨?_, ?_, ?_⟩
  · intro prompt diagramType userId err now nowIso hp hk
    unfold handleGenerate
    simp [hp, hk]
  · intro parsedData chartType selectedColumns fileName userId err db now nowIso
      hp hc hx hy
    unfold handleGenerateChart
    simp [hp, hc, hx, hy]
  · intro f userId publicUrl text err db now nowIso h
    have hlt : ¬ ((trimS text).length < 100) := by omega
    unfold handleProcessPDF
    simp [hlt]

/-- Witness for C1 (amended): concrete runs of all three flows with a
failing completion call. -/
theorem c1_fallback_witness :
    handleGenerate "Explain photosynthesis" "flowchart" (.ok "u1")
        (.error "boom") (.ok ()) "1" "t" =
      (.success
        { id := "diagram_" ++ "1", userId := "u1",
          title := takeS 100 "Explain photosynthesis", type' := "flowchart",
          prompt := "Explain photosynthesis",
          diagramCode :=
            sanitizeStr (fallbackDiagram "flowchart" "Explain photosynthesis"),
          createdAt := "t" },
       [.auth, .ai, .dbCreate]) ∧
    handleGenerateChart [[("x", "Jan"), ("y", "10")]] "bar"
        { x := "x", y := "y", label := "" } "d.csv" (.ok "u1") (.error "boom")
        (.ok ()) "1" "t" =
      (.failure "Chart generation failed", [.auth, .ai]) ∧
    handleProcessPDF (some { name := "paper.pdf", size := 9 }) (.ok "u1")
        (.ok "url") (.ok longExtract) (.error "boom") (.ok ()) "1" "t" =
      (.failure "boom", [.auth, .upload, .extract, .ai]) :=
  ⟨c1_fallback_only_in_prompt_flow.1 "Explain photosynthesis" "flowchart" "u1"
      "boom" "1" "t" (by decide) (by decide),
   c1_fallback_only_in_prompt_flow.2.1 [[("x", "Jan"), ("y", "10")]] "bar"
      { x := "x", y := "y", label := "" } "d.csv" "u1" "boom" (.ok ()) "1" "t"
      (by decide) (by decide) (by decide) (by decide),
   c1_fallback_only_in_prompt_flow.2.2 { name := "paper.pdf", size := 9 } "u1"
      "url" longExtract "boom" (.ok ()) "1" "t" (by decide)⟩

/-- C2 counterexample: the DATASET flow persists the completion output
verbatim — a response wrapped in code fences is stored fences and all,
refuting the claim that sanitization runs in every producing flow. -/
theorem c2_counterexample_dataset_keeps_fences :
    (handleGenerateChart [[("x", "Jan"), ("y", "10")]] "pie"
        { x := "x", y := "y", label := "" } "data.csv" (.ok "u")
        (.ok "```mermaid\npie\n```") (.ok ()) "1" "t").1 =
      .success
        { id := "chart_1", userId := "u", title := "pie chart from data.csv",
          type' := "pie", prompt := "Chart generated from dataset: data.csv",
          diagramCode := "```mermaid\npie\n```",
          sourceData := some [{ x := "Jan", y := some 10, label := "Jan" }],
          createdAt := "t" } ∧
    hasTripleS "```mermaid\npie\n```" = true := by
  constructor
  · decide
  · decide

/-- C2 (amended): the strip-fences-and-trim sanitization runs
unconditionally in the PROMPT flow only: every record that flow
persists is free of code-fence markers whatever the completion service
returned, and the fallback path always yields a non-empty description.
(The dataset and document flows persist the completion output
unsanitized.) -/
theorem c2_sanitization_prompt_flow :
    (∀ (prompt diagramType userId : String) (ai : Except String String)
       (db : Except String Unit) (now nowIso : String) (rec : DiagramRecord),
       (handleGenerate prompt diagramType (.ok userId) ai db now nowIso).1 =
         .success rec →
       hasTripleS rec.diagramCode = false) ∧
    (∀ (prompt diagramType userId err : String) (db : Except String Unit)
       (now nowIso : String) (rec : DiagramRecord),
       (handleGenerate prompt diagramType (.ok userId) (.error err) db
         now nowIso).1 = .success rec →
       rec.diagramCode ≠ "") := by
  constructor
  · intro prompt diagramType userId ai db now nowIso rec h
    by_cases hp : trimS prompt = ""
    · unfold handleGenerate at h
      simp [hp] at h
    · by_cases hk : diagramType = ""
      · unfold handleGenerate at h
        simp [hp, hk] at h
      · cases db with
        | error e =>
          unfold handleGenerate at h
          simp [hp, hk] at h
        | ok _ =>
          unfold handleGenerate at h
          simp [hp, hk] at h
          rw [← h]
          exact sanitizeStr_no_triple _
  · intro prompt diagramType userId err db now nowIso rec h
    by_cases hp : trimS prompt = ""
    · unfold handleGenerate at h
      simp [hp] at h
    · by_cases hk : diagramType = ""
      · unfold handleGenerate at h
        simp [hp, hk] at h
      · cases db with
        | error e =>
          unfold handleGenerate at h
          simp [hp, hk] at h
        | ok _ =>
          unfold handleGenerate at h
          simp [hp, hk] at h
          rw [← h]
          exact sanitizeStr_fallbackDiagram_ne_empty diagramType prompt

/-- Witness for C2 (amended): the record persisted by a concrete
fallback run is fence-free and non-empty. -/
theorem c2_sanitization_witness :
    hasTripleS (sanitizeStr (fallbackDiagram "flowchart" "Explain photosynthesis"))
      = false ∧
    sanitizeStr (fallbackDiagram "flowchart" "Explain photosynthesis") ≠ "" :=
  ⟨c2_sanitization_prompt_flow.1 "Explain photosynthesis" "flowchart" "u"
      (.error "boom") (.ok ()) "1" "t"
      { id := "diagram_" ++ "1", userId := "u",
        title := takeS 100 "Explain photosynthesis", type' := "flowchart",
        prompt := "Explain photosynthesis",
        diagramCode :=
          sanitizeStr (fallbackDiagram "flowchart" "Explain photosynthesis"),
        createdAt := "t" } rfl,
   c2_sanitization_prompt_flow.2 "Explain photosynthesis" "flowchart" "u"
      "boom" (.ok ()) "1" "t"
      { id := "diagram_" ++ "1", userId := "u",
        title := takeS 100 "Explain photosynthesis", type' := "flowchart",
        prompt := "Explain photosynthesis",
        diagramCode :=
          sanitizeStr (fallbackDiagram "flowchart" "Explain photosynthesis"),
        createdAt := "t" } rfl⟩

end AIDiagram
